import Mathlib

/-!
Shallow embedding of the pygit2 binding layer (src/pygit2.c).

The binding code itself (argument checking, error mapping, index
normalization, type dispatch) is translated function by function from the
C source.  The libgit2 / object-database primitives it delegates to
(hex codec, odb read and existence check, repository lookup, object write,
tree entry container) are external collaborators of this repository; they
are modelled from the interface the spec gives for them (spec sections 3,
4 and 6) and are marked as such in their doc comments.

Python-level conventions used by the embedding:
- a `PyValue` is the argument or result of a binding call;
- a failing call returns `Except.error` carrying the exception the C code
  raises (`PyErr`); the C convention of returning -1 or NULL with an
  exception set is rendered as that error value;
- `assert(0)` in the C source (the unknown-type arm of `wrap_object`)
  aborts the process; it is modelled as the distinguished `PyErr.fatal`
  outcome, which no binding path ever converts into an ordinary result;
- state that the C mutates in place (a tree, a commit, the database) is
  passed in and returned explicitly, so a call that fails returns no new
  state and the caller keeps the unchanged one.
-/

namespace Pygit2

/-- A 20-byte object id, each element one byte. -/
abbrev Oid := List Nat

def GIT_OID_RAWSZ : Nat := 20

def GIT_OID_HEXSZ : Nat := 40

def GIT_OBJ_COMMIT : Nat := 1

def GIT_OBJ_TREE : Nat := 2

def GIT_OBJ_BLOB : Nat := 3

def GIT_OBJ_TAG : Nat := 4

/-- Value of one lowercase hex digit, `Option.none` for a non-hex character. -/
def hexVal (c : Char) : Option Nat :=
  if '0' ≤ c ∧ c ≤ '9' then some (c.toNat - '0'.toNat)
  else if 'a' ≤ c ∧ c ≤ 'f' then some (c.toNat - 'a'.toNat + 10)
  else Option.none

/-- Lowercase hex digit for a value below 16. -/
def hexChar (n : Nat) : Char :=
  if n < 10 then Char.ofNat ('0'.toNat + n) else Char.ofNat ('a'.toNat + n - 10)

/-- Combine a list of hex-digit values pairwise into bytes. -/
def pairUp : List Nat → List Nat
  | h :: l :: rest => (h * 16 + l) :: pairUp rest
  | _ => []

/-- External collaborator (hex codec, libgit2 git_oid_mkstr), modelled from
the spec: decode exactly 40 lowercase hex characters into a 20-byte id,
rejecting wrong length or non-hex characters. -/
def git_oid_mkstr (s : String) : Option Oid :=
  if s.length = GIT_OID_HEXSZ then (s.data.mapM hexVal).map pairUp
  else Option.none

/-- External collaborator (hex codec, libgit2 git_oid_fmt), modelled from
the spec: 40-character lowercase hex rendering of an id. -/
def git_oid_fmt (oid : Oid) : String :=
  String.mk (oid.foldr (fun b acc => hexChar (b / 16) :: hexChar (b % 16) :: acc) [])

/-- A raw stored object: declared type tag plus payload bytes
(spec section 6, the ObjectDatabase read result). -/
structure git_rawobj where
  otype : Nat
  data : List Nat
deriving DecidableEq

/-- The object database, modelled as an association list from ids to raw
objects (external collaborator, spec section 6). -/
abbrev git_odb := List (Oid × git_rawobj)

/-- External collaborator: read-by-hash (spec section 6). -/
def git_odb_read (db : git_odb) (oid : Oid) : Option git_rawobj :=
  db.lookup oid

/-- External collaborator: existence check (spec section 6). -/
def git_odb_exists (db : git_odb) (oid : Oid) : Bool :=
  (git_odb_read db oid).isSome

/-- An in-memory libgit2 object: its type tag, its id when persisted
(`Option.none` exactly while never written), and whether the in-memory
state differs from what is persisted. -/
structure git_object where
  otype : Nat
  oid : Option Oid
  modified : Bool
deriving DecidableEq

/-- External collaborator (libgit2 git_repository_lookup), modelled from the
spec: reads the raw object stored under `oid` and yields a persisted
in-memory object carrying the stored type tag and that id; an absent id
yields no object. -/
def git_repository_lookup (db : git_odb) (oid : Oid) : Option git_object :=
  (git_odb_read db oid).map fun raw => { otype := raw.otype, oid := some oid, modified := false }

/-- External collaborator (libgit2 git_object_new and friends), modelled from
the spec: a brand-new in-memory object has no id until first write. -/
def git_object_new (otype : Nat) : git_object :=
  { otype := otype, oid := Option.none, modified := true }

/-- External collaborator (libgit2 git_object_write), modelled from the spec:
an unchanged persisted object is a no-op keeping the existing id; otherwise
the current state is serialized and stored through the abstract database
write primitive `odb_write` (spec section 6), which returns the id the
content was stored under, or fails (storage error), and the id assigned to
the object is updated to the stored one. -/
def git_object_write (serialize : git_object → List Nat)
    (odb_write : Nat → List Nat → git_odb → Option (Oid × git_odb))
    (obj : git_object) (db : git_odb) : Option (git_object × git_odb) :=
  if obj.oid.isSome ∧ obj.modified = false then some (obj, db)
  else
    match odb_write obj.otype (serialize obj) db with
    | Option.none => Option.none
    | some (oid, db2) => some ({ obj with oid := some oid, modified := false }, db2)

/-- A Python value, as far as the binding inspects them. -/
inductive PyValue where
  | none
  | str (s : String)
  | bytes (data : List Nat)
  | int (i : Int)
  | tuple (items : List PyValue)

/-- A raised Python exception (or, for `fatal`, an assert(0) abort). -/
inductive PyErr where
  | typeError (msg : String)
  | valueError (msg : String)
  | runtimeError (msg : String)
  | keyError (key : PyValue)
  | indexError (key : PyValue)
  | memoryError
  | fatal (msg : String)

def PyString_Check : PyValue → Bool
  | .str _ => true
  | _ => false

def PyInt_Check : PyValue → Bool
  | .int _ => true
  | _ => false

def PyString_AsString : PyValue → Option String
  | .str s => some s
  | _ => Option.none

def PyInt_AsLong : PyValue → Option Int
  | .int i => some i
  | _ => Option.none

/-- Which Python wrapper type an object is wrapped in.  The binding defines
specialized types for commits, trees and blobs; tags are wrapped in the
generic Object type (there is no dedicated tag wrapper in the source). -/
inductive PyObjKind where
  | object
  | commit
  | tree
  | blob
deriving DecidableEq

/-- A wrapped object as handed to Python: the wrapper type chosen by
wrap_object, the ownership flag, and the underlying libgit2 object. -/
structure PyGitObject where
  kind : PyObjKind
  own_obj : Bool
  obj : git_object
deriving DecidableEq

/-- Embeds wrap_object (src/pygit2.c lines 113-138): dispatch on the stored
type tag to the wrapper type for that kind; the default arm of the switch is
assert(0), modelled as the fatal outcome - no wrapper is ever constructed
for an unknown tag.  tp_alloc zeroes the struct, so own_obj starts false. -/
def wrap_object (obj : git_object) : Except PyErr PyGitObject :=
  if obj.otype = GIT_OBJ_COMMIT then .ok ⟨.commit, false, obj⟩
  else if obj.otype = GIT_OBJ_TREE then .ok ⟨.tree, false, obj⟩
  else if obj.otype = GIT_OBJ_BLOB then .ok ⟨.blob, false, obj⟩
  else if obj.otype = GIT_OBJ_TAG then .ok ⟨.object, false, obj⟩
  else .error (.fatal "assert(0) in wrap_object: unknown object type")

/-- Embeds Repository_contains (src/pygit2.c lines 98-111). -/
def Repository_contains (db : git_odb) (value : PyValue) : Except PyErr Bool :=
  match PyString_AsString value with
  | Option.none => .error (.typeError "expected string")
  | some hex =>
    match git_oid_mkstr hex with
    | Option.none => .error (.valueError ("Invalid hex SHA " ++ hex))
    | some oid => .ok (git_odb_exists db oid)

/-- Embeds Repository_getitem (src/pygit2.c lines 140-167): decode the hex,
look the id up, wrap the result (own_obj is set to 0, as wrap_object already
records). -/
def Repository_getitem (db : git_odb) (value : PyValue) : Except PyErr PyGitObject :=
  match PyString_AsString value with
  | Option.none => .error (.typeError "expected string")
  | some hex =>
    match git_oid_mkstr hex with
    | Option.none => .error (.valueError ("Invalid hex SHA " ++ hex))
    | some oid =>
      match git_repository_lookup db oid with
      | Option.none => .error (.runtimeError ("Failed to look up hex SHA " ++ hex))
      | some obj => wrap_object obj

/-- Embeds repository_raw_read (src/pygit2.c lines 169-180); the caller
inspects the result and raises its own error on failure. -/
def repository_raw_read (db : git_odb) (oid : Oid) : Option git_rawobj :=
  git_odb_read db oid

/-- Embeds Object_get_type (src/pygit2.c lines 285-288). -/
def Object_get_type (obj : git_object) : PyValue :=
  .int obj.otype

/-- Embeds Object_get_sha (src/pygit2.c lines 290-301): the None sentinel
while the object has no id, otherwise the 40-char hex string. -/
def Object_get_sha (obj : git_object) : PyValue :=
  match obj.oid with
  | Option.none => .none
  | some oid => .str (git_oid_fmt oid)

/-- Embeds Object_read_raw (src/pygit2.c lines 303-322): the None sentinel
for an in-memory object without id; a read failure for an id whose backing
bytes are missing raises RuntimeError. -/
def Object_read_raw (db : git_odb) (obj : git_object) : Except PyErr PyValue :=
  match obj.oid with
  | Option.none => .ok .none
  | some oid =>
    match repository_raw_read db oid with
    | Option.none => .error (.runtimeError "Failed to read object")
    | some raw => .ok (.bytes raw.data)

/-- Embeds Object_write (src/pygit2.c lines 324-331): delegate to
git_object_write, raise RuntimeError on failure, and return Py_None on
success (the C source returns Py_None, not the id). -/
def Object_write (serialize : git_object → List Nat)
    (odb_write : Nat → List Nat → git_odb → Option (Oid × git_odb))
    (obj : git_object) (db : git_odb) : Except PyErr (PyValue × git_object × git_odb) :=
  match git_object_write serialize odb_write obj db with
  | Option.none => .error (.runtimeError "Failed to write object to repo")
  | some (obj2, db2) => .ok (.none, obj2, db2)

/-- An identity triple (libgit2 git_person). -/
structure git_person where
  name : String
  email : String
  time : Int
deriving DecidableEq

/-- The structured fields of a commit the binding reads and writes
(external collaborator struct, spec section 4.3). -/
structure git_commit where
  message : String
  author : git_person
  committer : git_person
deriving DecidableEq

/-- External collaborator (libgit2 git_commit_new), modelled from the spec:
a brand-new commit has empty fields. -/
def git_commit_new : git_commit :=
  { message := "", author := ⟨"", "", 0⟩, committer := ⟨"", "", 0⟩ }

/-- Embeds Commit_get_message (src/pygit2.c lines 433-436). -/
def Commit_get_message (c : git_commit) : PyValue :=
  .str c.message

/-- Embeds Commit_set_message (src/pygit2.c lines 438-446): a non-string
value raises TypeError before git_commit_set_message is called, so the
prior message is untouched. -/
def Commit_set_message (c : git_commit) (message : PyValue) : Except PyErr git_commit :=
  match message with
  | .str s => .ok { c with message := s }
  | _ => .error (.typeError "Expected string for commit message.")

/-- Embeds the PyArg_ParseTuple call with format ssL used by the author and
committer setters: a three-tuple (string, string, integer); anything else
fails argument parsing with TypeError. -/
def parseTuple_ssL (v : PyValue) : Option (String × String × Int) :=
  match v with
  | .tuple [.str name, .str email, .int time] => some (name, email, time)
  | _ => Option.none

/-- Embeds Commit_set_committer (src/pygit2.c lines 462-470): a malformed
triple fails parsing before git_commit_set_committer is called. -/
def Commit_set_committer (c : git_commit) (value : PyValue) : Except PyErr git_commit :=
  match parseTuple_ssL value with
  | Option.none => .error (.typeError "argument parsing raised TypeError")
  | some (name, email, time) => .ok { c with committer := ⟨name, email, time⟩ }

/-- Embeds Commit_set_author (src/pygit2.c lines 481-489), same shape as the
committer setter. -/
def Commit_set_author (c : git_commit) (value : PyValue) : Except PyErr git_commit :=
  match parseTuple_ssL value with
  | Option.none => .error (.typeError "argument parsing raised TypeError")
  | some (name, email, time) => .ok { c with author := ⟨name, email, time⟩ }

/-- One tree entry: permission bits, filename, target id
(external collaborator struct, spec section 3). -/
structure git_tree_entry where
  attributes : Int
  filename : String
  oid : Oid
deriving DecidableEq

/-- A tree is its ordered sequence of entries (external collaborator,
spec section 3: order is the iteration and indexing order). -/
abbrev git_tree := List git_tree_entry

/-- External collaborator: entry count. -/
def git_tree_entrycount (t : git_tree) : Nat :=
  t.length

/-- External collaborator: first entry with the given exact name. -/
def git_tree_entry_byname (t : git_tree) (name : String) : Option git_tree_entry :=
  t.find? fun e => e.filename == name

/-- External collaborator: entry at a position. -/
def git_tree_entry_byindex (t : git_tree) (idx : Nat) : Option git_tree_entry :=
  t[idx]?

/-- External collaborator (libgit2 git_tree_add_entry), modelled from the
spec: appends a new entry; nothing is looked up in any database. -/
def git_tree_add_entry (t : git_tree) (oid : Oid) (name : String) (attributes : Int) : git_tree :=
  t ++ [⟨attributes, name, oid⟩]

/-- External collaborator: remove the (first) entry with the given name,
failing when no entry has it. -/
def git_tree_remove_entry_byname (t : git_tree) (name : String) : Option git_tree :=
  if (git_tree_entry_byname t name).isSome then
    some (t.eraseP fun e => e.filename == name)
  else Option.none

/-- External collaborator: remove the entry at a position, failing when the
position is out of range. -/
def git_tree_remove_entry_byindex (t : git_tree) (idx : Nat) : Option git_tree :=
  if idx < t.length then some (t.eraseIdx idx) else Option.none

/-- Embeds Tree_len (src/pygit2.c lines 699-702). -/
def Tree_len (t : git_tree) : Int :=
  (git_tree_entrycount t : Int)

/-- Embeds Tree_contains (src/pygit2.c lines 704-709). -/
def Tree_contains (t : git_tree) (py_name : PyValue) : Bool :=
  match PyString_AsString py_name with
  | Option.none => false
  | some name => (git_tree_entry_byname t name).isSome

/-- Embeds Tree_getitem_by_name (src/pygit2.c lines 724-735): an absent name
raises KeyError carrying the name object. -/
def Tree_getitem_by_name (t : git_tree) (py_name : PyValue) : Except PyErr git_tree_entry :=
  match PyString_AsString py_name with
  | Option.none => .error (.typeError "expected string")
  | some name =>
    match git_tree_entry_byname t name with
    | Option.none => .error (.keyError py_name)
    | some entry => .ok entry

/-- Embeds Tree_fix_index (src/pygit2.c lines 737-762): both bounds are
checked against the current length before anything is looked up, raising
IndexError carrying the index object; a surviving negative index is then
normalized by adding the length. -/
def Tree_fix_index (t : git_tree) (py_index : PyValue) : Except PyErr Nat :=
  match PyInt_AsLong py_index with
  | Option.none => .error (.typeError "an integer is required")
  | some index =>
    let slen : Int := (git_tree_entrycount t : Int)
    if index ≥ slen then .error (.indexError py_index)
    else if index < -slen then .error (.indexError py_index)
    else if index < 0 then .ok (slen + index).toNat
    else .ok index.toNat

/-- Embeds Tree_getitem_by_index (src/pygit2.c lines 764-779). -/
def Tree_getitem_by_index (t : git_tree) (py_index : PyValue) : Except PyErr git_tree_entry :=
  match Tree_fix_index t py_index with
  | .error e => .error e
  | .ok index =>
    match git_tree_entry_byindex t index with
    | Option.none => .error (.indexError py_index)
    | some entry => .ok entry

/-- Embeds Tree_getitem (src/pygit2.c lines 781-791). -/
def Tree_getitem (t : git_tree) (value : PyValue) : Except PyErr git_tree_entry :=
  if PyString_Check value then Tree_getitem_by_name t value
  else if PyInt_Check value then Tree_getitem_by_index t value
  else .error (.typeError "Expected int or str for tree index.")

/-- Embeds Tree_delitem_by_name (src/pygit2.c lines 793-802). -/
def Tree_delitem_by_name (t : git_tree) (name : PyValue) : Except PyErr git_tree :=
  match PyString_AsString name with
  | Option.none => .error (.typeError "expected string")
  | some s =>
    match git_tree_remove_entry_byname t s with
    | Option.none => .error (.keyError name)
    | some t2 => .ok t2

/-- Embeds Tree_delitem_by_index (src/pygit2.c lines 804-816). -/
def Tree_delitem_by_index (t : git_tree) (py_index : PyValue) : Except PyErr git_tree :=
  match Tree_fix_index t py_index with
  | .error e => .error e
  | .ok index =>
    match git_tree_remove_entry_byindex t index with
    | Option.none => .error (.indexError py_index)
    | some t2 => .ok t2

/-- Embeds Tree_delitem (src/pygit2.c lines 818-837): assignment (a non-NULL
value) is rejected up front with ValueError and the tree is untouched;
deletion dispatches on the key type. -/
def Tree_delitem (t : git_tree) (name : PyValue) (value : Option PyValue) : Except PyErr git_tree :=
  match value with
  | some _ => .error (.valueError "Cannot set TreeEntry directly; use add_entry.")
  | Option.none =>
    if PyString_Check name then Tree_delitem_by_name t name
    else if PyInt_Check name then Tree_delitem_by_index t name
    else .error (.typeError "Expected int or str for tree index.")

/-- Embeds Tree_add_entry (src/pygit2.c lines 839-856): decode the hex
(ValueError when malformed), then append; the target id is never checked
against any database - the function does not even receive one. -/
def Tree_add_entry (t : git_tree) (hex name : String) (attributes : Int) : Except PyErr git_tree :=
  match git_oid_mkstr hex with
  | Option.none => .error (.valueError ("Invalid hex SHA " ++ hex))
  | some oid => .ok (git_tree_add_entry t oid name attributes)

/-- Embeds TreeEntry_get_attributes (src/pygit2.c lines 553-556). -/
def TreeEntry_get_attributes (e : git_tree_entry) : PyValue :=
  .int e.attributes

/-- Embeds TreeEntry_get_name (src/pygit2.c lines 568-571). -/
def TreeEntry_get_name (e : git_tree_entry) : PyValue :=
  .str e.filename

/-- Embeds TreeEntry_get_sha (src/pygit2.c lines 583-588). -/
def TreeEntry_get_sha (e : git_tree_entry) : PyValue :=
  .str (git_oid_fmt e.oid)

/-- External collaborator (libgit2 git_tree_entry_2object), modelled from
the spec: resolve the target id of the entry through the repository owning
its tree. -/
def git_tree_entry_2object (db : git_odb) (e : git_tree_entry) : Option git_object :=
  git_repository_lookup db e.oid

/-- Embeds TreeEntry_to_object (src/pygit2.c lines 606-620): a failed
resolution raises KeyError carrying the hex rendering of the target id of
the entry; a successful one is wrapped like a lookup result. -/
def TreeEntry_to_object (db : git_odb) (e : git_tree_entry) : Except PyErr PyGitObject :=
  match git_tree_entry_2object db e with
  | Option.none => .error (.keyError (.str (git_oid_fmt e.oid)))
  | some obj => wrap_object obj

/-! Concrete sample values used by the witnesses below. -/

/-- A malformed 40-character string (non-hex characters). -/
def hexZ : String := "zzzzzzzzzzzzzzzzzzzzzzzzzzzzzzzzzzzzzzzz"

/-- A well-formed 40-character lowercase hex string. -/
def hexA : String := "aaaaaaaaaaaaaaaaaaaaaaaaaaaaaaaaaaaaaaaa"

/-- The id hexA decodes to: 20 bytes of value 170. -/
def oidA : Oid := List.replicate 20 170

/-- A one-object database storing a commit under oidA. -/
def dbA : git_odb := [(oidA, ⟨GIT_OBJ_COMMIT, [1, 2, 3]⟩)]

/-- The wrapped result of looking hexA up in dbA. -/
def pA : PyGitObject := ⟨.commit, false, ⟨GIT_OBJ_COMMIT, some oidA, false⟩⟩

/-- A sample tree entry targeting oidA. -/
def entryA : git_tree_entry := ⟨33188, "a.txt", oidA⟩

/-- A second sample entry. -/
def entryB : git_tree_entry := ⟨33188, "b.txt", oidA⟩

/-- A two-entry sample tree. -/
def treeAB : git_tree := [entryA, entryB]

/-- A trivial serializer for the write witnesses. -/
def serialize0 : git_object → List Nat := fun obj => [obj.otype]

/-- A database write that stores the payload under oidA. -/
def odb_write0 : Nat → List Nat → git_odb → Option (Oid × git_odb) :=
  fun t data db => some (oidA, (oidA, ⟨t, data⟩) :: db)

/-- A database write that always fails (storage error). -/
def odb_writeFail : Nat → List Nat → git_odb → Option (Oid × git_odb) :=
  fun _ _ _ => Option.none

/-! Claim theorems. -/

/-- Claim C1: for every hex-string input, repository lookup fails with
InvalidArgument (raised as ValueError) when the hex is malformed and with
NotFound (raised as RuntimeError) when the decoded id is absent from the
database; on the same absent id the membership test returns false instead
of failing. -/
theorem C1_lookup_contains_errors (db : git_odb) (hex : String) :
    (git_oid_mkstr hex = Option.none →
      Repository_getitem db (.str hex) = .error (.valueError ("Invalid hex SHA " ++ hex)) ∧
      Repository_contains db (.str hex) = .error (.valueError ("Invalid hex SHA " ++ hex))) ∧
    (∀ oid, git_oid_mkstr hex = some oid → git_odb_read db oid = Option.none →
      Repository_getitem db (.str hex) =
        .error (.runtimeError ("Failed to look up hex SHA " ++ hex)) ∧
      Repository_contains db (.str hex) = .ok false) := by
  refine ⟨fun h => ?_, fun oid h hnone => ?_⟩
  · constructor <;> simp [Repository_getitem, Repository_contains, PyString_AsString, h]
  · constructor <;>
      simp [Repository_getitem, Repository_contains, PyString_AsString, h,
        git_repository_lookup, git_odb_exists, hnone]

/-- Witness for C1: hexZ is malformed; hexA decodes to an id that the empty
database does not contain. -/
theorem C1_witness :
    Repository_getitem [] (.str hexZ) = .error (.valueError ("Invalid hex SHA " ++ hexZ)) ∧
    Repository_getitem [] (.str hexA) =
      .error (.runtimeError ("Failed to look up hex SHA " ++ hexA)) ∧
    Repository_contains [] (.str hexA) = .ok false := by
  refine ⟨((C1_lookup_contains_errors [] hexZ).1 (by rfl)).1, ?_, ?_⟩
  · exact ((C1_lookup_contains_errors [] hexA).2 oidA (by rfl) (by rfl)).1
  · exact ((C1_lookup_contains_errors [] hexA).2 oidA (by rfl) (by rfl)).2

/-- Claim C4: when lookup resolves an id, wrap_object sends each of the four
known type tags to the wrapper designated for that kind (commits, trees and
blobs to their specialized wrappers; tags to the generic Object wrapper, the
only known kind using it), preserving the wrapped object unchanged, and any
tag outside the known set hits the assert(0) arm - a fatal fault that never
produces a default wrapper. -/
theorem C4_wrap_object_dispatch (obj : git_object) :
    (obj.otype = GIT_OBJ_COMMIT → wrap_object obj = .ok ⟨.commit, false, obj⟩) ∧
    (obj.otype = GIT_OBJ_TREE → wrap_object obj = .ok ⟨.tree, false, obj⟩) ∧
    (obj.otype = GIT_OBJ_BLOB → wrap_object obj = .ok ⟨.blob, false, obj⟩) ∧
    (obj.otype = GIT_OBJ_TAG → wrap_object obj = .ok ⟨.object, false, obj⟩) ∧
    (obj.otype ≠ GIT_OBJ_COMMIT → obj.otype ≠ GIT_OBJ_TREE → obj.otype ≠ GIT_OBJ_BLOB →
      obj.otype ≠ GIT_OBJ_TAG →
      wrap_object obj = .error (.fatal "assert(0) in wrap_object: unknown object type")) := by
  unfold wrap_object GIT_OBJ_COMMIT GIT_OBJ_TREE GIT_OBJ_BLOB GIT_OBJ_TAG
  refine ⟨fun h => ?_, fun h => ?_, fun h => ?_, fun h => ?_, fun h1 h2 h3 h4 => ?_⟩ <;>
    simp_all

/-- Witness for C4 at the five concrete tags 1, 2, 3, 4 and 9. -/
theorem C4_witness :
    wrap_object ⟨1, Option.none, true⟩ = .ok ⟨.commit, false, ⟨1, Option.none, true⟩⟩ ∧
    wrap_object ⟨2, Option.none, true⟩ = .ok ⟨.tree, false, ⟨2, Option.none, true⟩⟩ ∧
    wrap_object ⟨3, Option.none, true⟩ = .ok ⟨.blob, false, ⟨3, Option.none, true⟩⟩ ∧
    wrap_object ⟨4, Option.none, true⟩ = .ok ⟨.object, false, ⟨4, Option.none, true⟩⟩ ∧
    wrap_object ⟨9, Option.none, true⟩ =
      .error (.fatal "assert(0) in wrap_object: unknown object type") := by
  refine ⟨(C4_wrap_object_dispatch _).1 rfl, (C4_wrap_object_dispatch _).2.1 rfl,
    (C4_wrap_object_dispatch _).2.2.1 rfl, (C4_wrap_object_dispatch _).2.2.2.1 rfl,
    (C4_wrap_object_dispatch ⟨9, Option.none, true⟩).2.2.2.2
      (by decide) (by decide) (by decide) (by decide)⟩

/-- Claim C5: setting the message with a non-text value, or author/committer
with a malformed triple (wrong arity or non-integer timestamp), fails with
InvalidArgument (raised as TypeError) producing no new commit state, so the
prior field value stands; a well-formed input updates only the targeted
field. -/
theorem C5_commit_setter_validation (c : git_commit) (v : PyValue) :
    (PyString_Check v = false →
      Commit_set_message c v = .error (.typeError "Expected string for commit message.")) ∧
    (parseTuple_ssL v = Option.none →
      Commit_set_committer c v = .error (.typeError "argument parsing raised TypeError") ∧
      Commit_set_author c v = .error (.typeError "argument parsing raised TypeError")) ∧
    (∀ s, Commit_set_message c (.str s) = .ok { c with message := s }) ∧
    (∀ name email time,
      Commit_set_committer c (.tuple [.str name, .str email, .int time]) =
        .ok { c with committer := ⟨name, email, time⟩ } ∧
      Commit_set_author c (.tuple [.str name, .str email, .int time]) =
        .ok { c with author := ⟨name, email, time⟩ }) := by
  refine ⟨fun h => ?_, fun h => ?_, fun s => rfl, fun name email time => ⟨rfl, rfl⟩⟩
  · cases v <;> simp_all [Commit_set_message, PyString_Check]
  · exact ⟨by simp [Commit_set_committer, h], by simp [Commit_set_author, h]⟩

/-- Witness for C5: an integer message, a wrong-arity triple and a triple
with a non-integer timestamp are each rejected; a string message is set. -/
theorem C5_witness :
    Commit_set_message git_commit_new (.int 7) =
      .error (.typeError "Expected string for commit message.") ∧
    Commit_set_committer git_commit_new (.tuple [.str "A"]) =
      .error (.typeError "argument parsing raised TypeError") ∧
    Commit_set_author git_commit_new (.tuple [.str "B", .str "b@x", .str "late"]) =
      .error (.typeError "argument parsing raised TypeError") ∧
    Commit_set_message git_commit_new (.str "init") =
      .ok { git_commit_new with message := "init" } := by
  refine ⟨(C5_commit_setter_validation git_commit_new (.int 7)).1 rfl, ?_, ?_,
    (C5_commit_setter_validation git_commit_new (.int 7)).2.2.1 "init"⟩
  · exact ((C5_commit_setter_validation git_commit_new (.tuple [.str "A"])).2.1 rfl).1
  · exact ((C5_commit_setter_validation git_commit_new
      (.tuple [.str "B", .str "b@x", .str "late"])).2.1 rfl).2

/-- Claim C7: resolving a tree entry whose target id is absent from the
database fails with NotFound (raised as KeyError) reporting the hex of that
target id; when the target is stored under a known type tag, resolution
yields a wrapped object whose id equals the target id of the entry. -/
theorem C7_entry_resolution (db : git_odb) (e : git_tree_entry) :
    (git_odb_read db e.oid = Option.none →
      TreeEntry_to_object db e = .error (.keyError (.str (git_oid_fmt e.oid)))) ∧
    (∀ raw, git_odb_read db e.oid = some raw →
      (raw.otype = GIT_OBJ_COMMIT ∨ raw.otype = GIT_OBJ_TREE ∨
        raw.otype = GIT_OBJ_BLOB ∨ raw.otype = GIT_OBJ_TAG) →
      ∃ p : PyGitObject, TreeEntry_to_object db e = .ok p ∧ p.obj.oid = some e.oid) := by
  constructor
  · intro h
    simp [TreeEntry_to_object, git_tree_entry_2object, git_repository_lookup, h]
  · intro raw h hk
    have hl : git_tree_entry_2object db e = some ⟨raw.otype, some e.oid, false⟩ := by
      simp [git_tree_entry_2object, git_repository_lookup, h]
    rcases hk with h1 | h1 | h1 | h1
    · exact ⟨⟨.commit, false, ⟨raw.otype, some e.oid, false⟩⟩,
        by simp [TreeEntry_to_object, hl, wrap_object, h1], rfl⟩
    · exact ⟨⟨.tree, false, ⟨raw.otype, some e.oid, false⟩⟩,
        by simp [TreeEntry_to_object, hl, wrap_object, h1, GIT_OBJ_COMMIT, GIT_OBJ_TREE], rfl⟩
    · exact ⟨⟨.blob, false, ⟨raw.otype, some e.oid, false⟩⟩,
        by simp [TreeEntry_to_object, hl, wrap_object, h1, GIT_OBJ_COMMIT, GIT_OBJ_TREE,
          GIT_OBJ_BLOB], rfl⟩
    · exact ⟨⟨.object, false, ⟨raw.otype, some e.oid, false⟩⟩,
        by simp [TreeEntry_to_object, hl, wrap_object, h1, GIT_OBJ_COMMIT, GIT_OBJ_TREE,
          GIT_OBJ_BLOB, GIT_OBJ_TAG], rfl⟩

/-- Witness for C7: resolving entryA fails against the empty database and
succeeds against dbA, which stores its target. -/
theorem C7_witness :
    TreeEntry_to_object [] entryA = .error (.keyError (.str (git_oid_fmt entryA.oid))) ∧
    ∃ p : PyGitObject, TreeEntry_to_object dbA entryA = .ok p ∧ p.obj.oid = some entryA.oid := by
  refine ⟨(C7_entry_resolution [] entryA).1 (by rfl), ?_⟩
  exact (C7_entry_resolution dbA entryA).2 ⟨GIT_OBJ_COMMIT, [1, 2, 3]⟩ (by rfl) (Or.inl rfl)

/-- Claim C8: the id getter returns the None sentinel exactly when the
object carries no id; a brand-new, never-written object carries no id and
read_raw on it likewise returns the None sentinel rather than failing; a
looked-up (persisted) object always carries the id it was resolved by; and
read_raw on an object whose id has no backing bytes in the database fails
with NotFound (raised as RuntimeError). -/
theorem C8_absent_id_semantics (db : git_odb) (obj : git_object) (t : Nat) :
    (Object_get_sha obj = PyValue.none ↔ obj.oid = Option.none) ∧
    (Object_get_sha (git_object_new t) = PyValue.none ∧
      Object_read_raw db (git_object_new t) = .ok PyValue.none) ∧
    (∀ oid o, git_repository_lookup db oid = some o → o.oid = some oid) ∧
    (∀ oid, obj.oid = some oid → git_odb_read db oid = Option.none →
      Object_read_raw db obj = .error (.runtimeError "Failed to read object")) := by
  refine ⟨?_, ⟨rfl, rfl⟩, ?_, ?_⟩
  · cases h : obj.oid <;> simp [Object_get_sha, h]
  · intro oid o h
    simp only [git_repository_lookup, Option.map_eq_some'] at h
    obtain ⟨raw, hr, ho⟩ := h
    rw [← ho]
  · intro oid h hnone
    simp [Object_read_raw, repository_raw_read, h, hnone]

/-- Witness for C8: a persisted object carrying oidA, a brand-new object of
tag 3, a successful lookup in dbA, and a dangling id against the empty
database. -/
theorem C8_witness :
    (Object_get_sha ⟨3, some oidA, false⟩ = PyValue.none ↔
      (some oidA : Option Oid) = Option.none) ∧
    Object_get_sha (git_object_new 3) = PyValue.none ∧
    Object_read_raw [] (git_object_new 3) = .ok PyValue.none ∧
    (⟨GIT_OBJ_COMMIT, some oidA, false⟩ : git_object).oid = some oidA ∧
    Object_read_raw [] ⟨3, some oidA, false⟩ =
      .error (.runtimeError "Failed to read object") := by
  obtain ⟨h1, ⟨h2, h3⟩, h4, h5⟩ := C8_absent_id_semantics [] ⟨3, some oidA, false⟩ 3
  refine ⟨h1, h2, h3, ?_, h5 oidA rfl rfl⟩
  exact (C8_absent_id_semantics dbA ⟨3, some oidA, false⟩ 3).2.2.1 oidA
    ⟨GIT_OBJ_COMMIT, some oidA, false⟩ (by rfl)

/-- Claim C9: for every tree and key, direct item assignment is rejected with
InvalidOperation (raised as ValueError: Cannot set TreeEntry directly) before
the key is even inspected, and no new tree state is produced - the entries
stand unchanged, mutable only through remove and add_entry. -/
theorem C9_no_direct_assignment (t : git_tree) (key v : PyValue) :
    Tree_delitem t key (some v) =
      .error (.valueError "Cannot set TreeEntry directly; use add_entry.") := rfl

/-- Claim C10: two lookups of the same id from the same repository state
yield objects reporting identical id and identical raw-read output. -/
theorem C10_lookup_deterministic (db : git_odb) (v : PyValue) (p1 p2 : PyGitObject)
    (h1 : Repository_getitem db v = .ok p1) (h2 : Repository_getitem db v = .ok p2) :
    Object_get_sha p1.obj = Object_get_sha p2.obj ∧
    Object_read_raw db p1.obj = Object_read_raw db p2.obj := by
  have h : p1 = p2 := by
    have h3 := h1.symm.trans h2
    simpa using h3
  rw [h]
  exact ⟨rfl, rfl⟩

/-- Witness for C10: looking hexA up twice in dbA yields pA both times, with
equal sha and raw reads. -/
theorem C10_witness :
    Repository_getitem dbA (.str hexA) = .ok pA ∧
    Object_get_sha pA.obj = Object_get_sha pA.obj ∧
    Object_read_raw dbA pA.obj = Object_read_raw dbA pA.obj := by
  exact ⟨by rfl, C10_lookup_deterministic dbA (.str hexA) pA pA (by rfl) (by rfl)⟩

/-- Unfolded form of Tree_fix_index on an integer key. -/
theorem Tree_fix_index_int (t : git_tree) (i : Int) :
    Tree_fix_index t (.int i) =
      if i ≥ (git_tree_entrycount t : Int) then .error (.indexError (.int i))
      else if i < -(git_tree_entrycount t : Int) then .error (.indexError (.int i))
      else if i < 0 then .ok ((git_tree_entrycount t : Int) + i).toNat
      else .ok i.toNat := rfl

/-- Claim C2: positional tree access normalizes negative indices against the
current length (in particular get at -1 equals get at length - 1), and both
out-of-range bounds (index at or above the length, index below minus the
length) are rejected with IndexOutOfRange (raised as IndexError) by the
shared index fixer, before any entry lookup happens. -/
theorem C2_tree_index_normalization (t : git_tree) (i : Int) :
    (Tree_getitem_by_index t (.int (-1)) =
      Tree_getitem_by_index t (.int ((git_tree_entrycount t : Int) - 1))) ∧
    ((git_tree_entrycount t : Int) ≤ i →
      Tree_fix_index t (.int i) = .error (.indexError (.int i)) ∧
      Tree_getitem_by_index t (.int i) = .error (.indexError (.int i))) ∧
    (i < -(git_tree_entrycount t : Int) →
      Tree_fix_index t (.int i) = .error (.indexError (.int i)) ∧
      Tree_getitem_by_index t (.int i) = .error (.indexError (.int i))) ∧
    (-(git_tree_entrycount t : Int) ≤ i → i < 0 →
      Tree_fix_index t (.int i) = .ok ((git_tree_entrycount t : Int) + i).toNat) := by
  refine ⟨?_, fun h => ?_, fun h => ?_, fun h1 h2 => ?_⟩
  · rcases Nat.eq_zero_or_pos (git_tree_entrycount t) with hz | hp
    · have e1 : ((git_tree_entrycount t : Int) - 1) = -1 := by rw [hz]; norm_num
      rw [e1]
    · have hn : git_tree_entrycount t - 1 < t.length := by
        simp only [git_tree_entrycount] at hp ⊢; omega
      have hf1 : Tree_fix_index t (.int (-1)) = .ok (git_tree_entrycount t - 1) := by
        rw [Tree_fix_index_int, if_neg (by omega), if_neg (by omega), if_pos (by omega)]
        simp only [Except.ok.injEq]
        omega
      have hf2 : Tree_fix_index t (.int ((git_tree_entrycount t : Int) - 1)) =
          .ok (git_tree_entrycount t - 1) := by
        rw [Tree_fix_index_int, if_neg (by omega), if_neg (by omega), if_neg (by omega)]
        simp only [Except.ok.injEq]
        omega
      simp [Tree_getitem_by_index, hf1, hf2, git_tree_entry_byindex,
        List.getElem?_eq_getElem hn]
  · have hf : Tree_fix_index t (.int i) = .error (.indexError (.int i)) := by
      rw [Tree_fix_index_int, if_pos (by omega)]
    exact ⟨hf, by simp [Tree_getitem_by_index, hf]⟩
  · have hf : Tree_fix_index t (.int i) = .error (.indexError (.int i)) := by
      rw [Tree_fix_index_int, if_neg (by omega), if_pos (by omega)]
    exact ⟨hf, by simp [Tree_getitem_by_index, hf]⟩
  · rw [Tree_fix_index_int, if_neg (by omega), if_neg (by omega), if_pos h2]

/-- Witness for C2 on the two-entry sample tree: index 2 and index -3 are
rejected on both bounds, index -1 normalizes, and get at -1 equals get at
length - 1. -/
theorem C2_witness :
    (Tree_getitem_by_index treeAB (.int (-1)) =
      Tree_getitem_by_index treeAB (.int ((git_tree_entrycount treeAB : Int) - 1))) ∧
    Tree_fix_index treeAB (.int 2) = .error (.indexError (.int 2)) ∧
    Tree_getitem_by_index treeAB (.int 2) = .error (.indexError (.int 2)) ∧
    Tree_fix_index treeAB (.int (-3)) = .error (.indexError (.int (-3))) ∧
    Tree_getitem_by_index treeAB (.int (-3)) = .error (.indexError (.int (-3))) ∧
    Tree_fix_index treeAB (.int (-1)) = .ok ((git_tree_entrycount treeAB : Int) + (-1)).toNat := by
  refine ⟨(C2_tree_index_normalization treeAB 0).1,
    ((C2_tree_index_normalization treeAB 2).2.1 (by decide)).1,
    ((C2_tree_index_normalization treeAB 2).2.1 (by decide)).2,
    ((C2_tree_index_normalization treeAB (-3)).2.2.1 (by decide)).1,
    ((C2_tree_index_normalization treeAB (-3)).2.2.1 (by decide)).2,
    (C2_tree_index_normalization treeAB (-1)).2.2.2 (by decide) (by decide)⟩

/-- Counterexample for C3 as stated: writing a brand-new blob through a
database write that stores it under oidA succeeds and assigns that id to the
object, but the call returns the Python None sentinel - not the resulting
ObjectId, which would surface as the 40-character hex string the sha getter
reports. -/
theorem C3_counterexample :
    Object_write serialize0 odb_write0 (git_object_new GIT_OBJ_BLOB) [] =
      .ok (PyValue.none, ⟨GIT_OBJ_BLOB, some oidA, false⟩,
        [(oidA, ⟨GIT_OBJ_BLOB, [GIT_OBJ_BLOB]⟩)]) ∧
    PyValue.none ≠ Object_get_sha ⟨GIT_OBJ_BLOB, some oidA, false⟩ :=
  ⟨rfl, by simp [Object_get_sha]⟩

/-- Claim C3 (amended): write() serializes the current in-memory state,
stores it, and updates the object id to the one the store assigned, but
returns the Python None sentinel rather than the resulting ObjectId (the
new id is then observable through the sha getter); a storage failure raises
StorageError (RuntimeError); and writing an unchanged persisted object is a
no-op that touches neither the database nor the existing id. -/
theorem C3_write_semantics (serialize : git_object → List Nat)
    (odb_write : Nat → List Nat → git_odb → Option (Oid × git_odb))
    (obj : git_object) (db : git_odb) :
    (∀ oid0, obj.oid = some oid0 → obj.modified = false →
      Object_write serialize odb_write obj db = .ok (.none, obj, db)) ∧
    ((obj.oid = Option.none ∨ obj.modified = true) →
      (∀ oid db2, odb_write obj.otype (serialize obj) db = some (oid, db2) →
        Object_write serialize odb_write obj db =
          .ok (.none, { obj with oid := some oid, modified := false }, db2) ∧
        Object_get_sha { obj with oid := some oid, modified := false } =
          .str (git_oid_fmt oid)) ∧
      (odb_write obj.otype (serialize obj) db = Option.none →
        Object_write serialize odb_write obj db =
          .error (.runtimeError "Failed to write object to repo"))) := by
  refine ⟨fun oid0 h1 h2 => ?_, fun hmod => ⟨fun oid db2 hw => ⟨?_, ?_⟩, fun hw => ?_⟩⟩
  · simp [Object_write, git_object_write, h1, h2]
  · have hcond : ¬(obj.oid.isSome = true ∧ obj.modified = false) := by
      rcases hmod with h | h <;> simp [h]
    simp [Object_write, git_object_write, hcond, hw]
  · simp [Object_get_sha]
  · have hcond : ¬(obj.oid.isSome = true ∧ obj.modified = false) := by
      rcases hmod with h | h <;> simp [h]
    simp [Object_write, git_object_write, hcond, hw]

/-- Witness for C3 (amended): a clean persisted object is a no-op, a new
blob is stored and given oidA, and a failing store raises RuntimeError. -/
theorem C3_witness :
    Object_write serialize0 odb_write0 ⟨GIT_OBJ_BLOB, some oidA, false⟩ dbA =
      .ok (.none, ⟨GIT_OBJ_BLOB, some oidA, false⟩, dbA) ∧
    Object_write serialize0 odb_write0 (git_object_new GIT_OBJ_BLOB) [] =
      .ok (.none, ⟨GIT_OBJ_BLOB, some oidA, false⟩,
        [(oidA, ⟨GIT_OBJ_BLOB, [GIT_OBJ_BLOB]⟩)]) ∧
    Object_write serialize0 odb_writeFail (git_object_new GIT_OBJ_BLOB) [] =
      .error (.runtimeError "Failed to write object to repo") := by
  refine ⟨(C3_write_semantics serialize0 odb_write0 ⟨GIT_OBJ_BLOB, some oidA, false⟩ dbA).1
      oidA rfl rfl, ?_, ?_⟩
  · exact (((C3_write_semantics serialize0 odb_write0 (git_object_new GIT_OBJ_BLOB) []).2
      (Or.inl rfl)).1 oidA [(oidA, ⟨GIT_OBJ_BLOB, [GIT_OBJ_BLOB]⟩)] rfl).1
  · exact ((C3_write_semantics serialize0 odb_writeFail (git_object_new GIT_OBJ_BLOB) []).2
      (Or.inl rfl)).2 rfl

/-- Claim C6: add_entry decodes the given hex (InvalidArgument, raised as
ValueError, when malformed) and appends a new entry carrying exactly the
given id, name and attribute bits; no database is consulted - the embedded
function does not even receive one, so ids of not-yet-written objects are
accepted; afterwards the length has increased by exactly one, and, the name
being fresh (duplicate names are a caller error boundary, spec section 3),
get by that name returns the new entry with the given id. -/
theorem C6_add_entry_appends (t : git_tree) (hex name : String) (attributes : Int) :
    (git_oid_mkstr hex = Option.none →
      Tree_add_entry t hex name attributes = .error (.valueError ("Invalid hex SHA " ++ hex))) ∧
    (∀ oid, git_oid_mkstr hex = some oid →
      Tree_add_entry t hex name attributes = .ok (t ++ [⟨attributes, name, oid⟩]) ∧
      git_tree_entrycount (t ++ [⟨attributes, name, oid⟩]) = git_tree_entrycount t + 1 ∧
      (git_tree_entry_byname t name = Option.none →
        Tree_getitem_by_name (t ++ [⟨attributes, name, oid⟩]) (.str name) =
          .ok ⟨attributes, name, oid⟩)) := by
  refine ⟨fun h => ?_, fun oid h => ⟨?_, ?_, fun hfresh => ?_⟩⟩
  · simp [Tree_add_entry, h]
  · simp [Tree_add_entry, h, git_tree_add_entry]
  · simp [git_tree_entrycount]
  · have hb : git_tree_entry_byname (t ++ [⟨attributes, name, oid⟩]) name =
        some ⟨attributes, name, oid⟩ := by
      unfold git_tree_entry_byname at hfresh ⊢
      rw [List.find?_append, hfresh]
      simp
    simp [Tree_getitem_by_name, PyString_AsString, hb]

/-- Witness for C6: a fresh name appended to the two-entry sample tree with
a target id the empty database does not contain; and a malformed hex. -/
theorem C6_witness :
    Tree_add_entry treeAB hexZ "c.txt" 33188 =
      .error (.valueError ("Invalid hex SHA " ++ hexZ)) ∧
    Tree_add_entry treeAB hexA "c.txt" 33188 =
      .ok (treeAB ++ [⟨33188, "c.txt", oidA⟩]) ∧
    git_tree_entrycount (treeAB ++ [⟨33188, "c.txt", oidA⟩]) = git_tree_entrycount treeAB + 1 ∧
    Tree_getitem_by_name (treeAB ++ [⟨33188, "c.txt", oidA⟩]) (.str "c.txt") =
      .ok ⟨33188, "c.txt", oidA⟩ := by
  obtain ⟨h1, h2, h3⟩ := (C6_add_entry_appends treeAB hexA "c.txt" 33188).2 oidA (by rfl)
  exact ⟨(C6_add_entry_appends treeAB hexZ "c.txt" 33188).1 (by rfl), h1, h2, h3 (by rfl)⟩

end Pygit2
